import Mathlib

/-!
Verification of the tariff-post classification pipeline (src/main.py).

The embedding models Python JSON values (`Json`), Python dicts as
association lists (`PyDict`), the media-inlining loop, the prompt
construction, the retry/truncate classification policy of `classify_post`,
the per-post pipeline `process_post` run over the post list, the two tier
filters of `main`, and the CSV row construction of `write_csv`.

External effects are parameters: the media fetch is a function from the
url value to a fetch outcome, and the classification service together with
`json.loads` of its `output_text` is a `ClassifierEnv` (the call is indexed
by the attempt number so that the two attempts may behave differently,
as real network calls do).
-/

set_option linter.unusedVariables false

namespace TruthScraper

/-- A Python JSON value, as produced by `json.loads`. Numbers are modelled
as integers, which covers every field of the classification schema. -/
inductive Json where
  | null : Json
  | bool (b : Bool) : Json
  | num (n : Int) : Json
  | str (s : String) : Json
  | arr (xs : List Json) : Json
  | obj (kvs : List (String × Json)) : Json

/-- A Python dict with string keys, as an association list. Dicts built by
the program have distinct keys, so first-match lookup is dict lookup. -/
abbrev PyDict := List (String × Json)

/-- `d.get(key)`: `some v` when the key is present with value `v`,
`none` when the key is absent. -/
def dictGet : PyDict → String → Option Json
  | [], _ => none
  | (k, v) :: rest, key => if k == key then some v else dictGet rest key

/-- Python truthiness of a JSON value (`bool(v)`). -/
def truthy : Json → Bool
  | .null => false
  | .bool b => b
  | .num n => n != 0
  | .str s => s != ""
  | .arr xs => !xs.isEmpty
  | .obj kvs => !kvs.isEmpty

mutual
/-- Python `repr` of a JSON value, used by `str()` for non-string values.
Strings are rendered in single quotes; the quote-choice subtlety of `repr`
for strings that themselves contain a single quote is not modelled, nor is
escaping, since no claim evaluates `repr` on such strings. -/
def pyRepr : Json → String
  | .null => "None"
  | .bool true => "True"
  | .bool false => "False"
  | .num n => toString n
  | .str s => "\x27" ++ s ++ "\x27"
  | .arr xs => "[" ++ pyReprList xs ++ "]"
  | .obj kvs => "\x7b" ++ pyReprObj kvs ++ "\x7d"

/-- Comma-separated `repr` of list elements. -/
def pyReprList : List Json → String
  | [] => ""
  | [x] => pyRepr x
  | x :: y :: rest => pyRepr x ++ ", " ++ pyReprList (y :: rest)

/-- Comma-separated `repr` of dict entries. -/
def pyReprObj : List (String × Json) → String
  | [] => ""
  | [kv] => "\x27" ++ kv.1 ++ "\x27: " ++ pyRepr kv.2
  | kv :: kv2 :: rest => "\x27" ++ kv.1 ++ "\x27: " ++ pyRepr kv.2 ++ ", " ++ pyReprObj (kv2 :: rest)
end

/-- Python `str()` of a JSON value, as an f-string interpolation performs. -/
def pyStr : Json → String
  | .str s => s
  | j => pyRepr j

/-- Lower-case hexadecimal digit. -/
def hexDigit (n : Nat) : Char := "0123456789abcdef".toList.getD n "0".toList.head!

/-- Four lower-case hex digits, as in a JSON `\uXXXX` escape. -/
def hex4 (n : Nat) : String :=
  String.mk [hexDigit (n / 4096 % 16), hexDigit (n / 256 % 16),
             hexDigit (n / 16 % 16), hexDigit (n % 16)]

/-- `json.dumps` escaping of one character (default `ensure_ascii=True`). -/
def jsonEscChar (c : Char) : String :=
  if c == Char.ofNat 34 then "\\\""
  else if c == Char.ofNat 92 then "\\\\"
  else if c == Char.ofNat 10 then "\\n"
  else if c == Char.ofNat 13 then "\\r"
  else if c == Char.ofNat 9 then "\\t"
  else if c == Char.ofNat 8 then "\\b"
  else if c == Char.ofNat 12 then "\\f"
  else if c.toNat < 32 then "\\u" ++ hex4 c.toNat
  else if c.toNat < 127 then String.mk [c]
  else if c.toNat < 65536 then "\\u" ++ hex4 c.toNat
  else "\\u" ++ hex4 (55296 + (c.toNat - 65536) / 1024)
       ++ "\\u" ++ hex4 (56320 + (c.toNat - 65536) % 1024)

/-- `json.dumps` escaping of a string body. -/
def jsonEscape (s : String) : String := String.join (s.toList.map jsonEscChar)

mutual
/-- Python `json.dumps` with its default separators. -/
def jsonDumps : Json → String
  | .null => "null"
  | .bool true => "true"
  | .bool false => "false"
  | .num n => toString n
  | .str s => "\"" ++ jsonEscape s ++ "\""
  | .arr xs => "[" ++ jsonDumpsList xs ++ "]"
  | .obj kvs => "\x7b" ++ jsonDumpsObj kvs ++ "\x7d"

/-- Comma-separated `json.dumps` of list elements. -/
def jsonDumpsList : List Json → String
  | [] => ""
  | [x] => jsonDumps x
  | x :: y :: rest => jsonDumps x ++ ", " ++ jsonDumpsList (y :: rest)

/-- Comma-separated `json.dumps` of dict entries. -/
def jsonDumpsObj : List (String × Json) → String
  | [] => ""
  | [kv] => "\"" ++ jsonEscape kv.1 ++ "\": " ++ jsonDumps kv.2
  | kv :: kv2 :: rest =>
      "\"" ++ jsonEscape kv.1 ++ "\": " ++ jsonDumps kv.2 ++ ", " ++ jsonDumpsObj (kv2 :: rest)
end

/-- The base64 alphabet (RFC 4648), as used by `base64.b64encode`. -/
def b64Alphabet : List Char :=
  "ABCDEFGHIJKLMNOPQRSTUVWXYZabcdefghijklmnopqrstuvwxyz0123456789+/".toList

/-- One base64 alphabet character. -/
def b64char (n : Nat) : Char := b64Alphabet.getD n "A".toList.head!

/-- `base64.b64encode(bytes).decode("utf-8")`: standard base64 with padding
over a byte sequence. -/
def b64encode : List Nat → String
  | [] => ""
  | [a] =>
      String.mk [b64char (a / 4), b64char (a % 4 * 16)] ++ "=="
  | [a, b] =>
      String.mk [b64char (a / 4), b64char (a % 4 * 16 + b / 16), b64char (b % 16 * 4)] ++ "="
  | a :: b :: c :: rest =>
      String.mk [b64char (a / 4), b64char (a % 4 * 16 + b / 16),
                 b64char (b % 16 * 4 + c / 64), b64char (c % 64)] ++ b64encode rest

/-- `n` is a pref of `h` (character lists). -/
def prefAt : List Char → List Char → Bool
  | [], _ => true
  | _ :: _, [] => false
  | a :: as, b :: bs => a == b && prefAt as bs

/-- `n` occurs contiguously somewhere in `h` (character lists). -/
def hasSub (n : List Char) : List Char → Bool
  | [] => prefAt n []
  | b :: bs => prefAt n (b :: bs) || hasSub n bs

/-- Python substring test `needle in hay`. -/
def strContains (hay needle : String) : Bool := hasSub needle.toList hay.toList

/-- Python `str.lower()`, lowering character by character (ASCII range;
the locale-independent non-ASCII mappings play no role in the substring
test below, whose needle is ASCII). -/
def strLower (s : String) : String := String.mk (s.toList.map Char.toLower)

/-- The oversize test of `classify_post`: Python
`"too long" in str(e).lower()` on the error message. -/
def sizeRelated (e : String) : Bool := strContains (strLower e) "too long"

/-- The truncation of the retry branch: Python
`prompt_text[:int(len(prompt_text) * 0.9)]`. -/
def truncate90 (s : String) : String := s.take (9 * s.length / 10)

/-- Outcome of `requests.get(url)`: either a returned response with a
status code and body bytes, or a raised exception. -/
inductive FetchOutcome where
  | response (status : Nat) (content : List Nat) : FetchOutcome
  | exn : FetchOutcome

/-- The media-type test of the media loop: Python `m.get("type") == "image"`
(absent key gives `None`, which is not equal to a string). -/
def isImageType (m : PyDict) : Bool :=
  match dictGet m "type" with
  | some (Json.str s) => s == "image"
  | _ => false

/-- The detail tag of a successful inline: Python `m.get("detail", "low")`
interpolated into the f-string. -/
def detailField (m : PyDict) : String :=
  match dictGet m "detail" with
  | none => "low"
  | some j => pyStr j

/-- One iteration of the media loop of `classify_post` (src/main.py lines
38 to 53): the text fragment appended to `enhanced_media_text` for one
media item, given the fetch behaviour. An absent `url` key makes the
subscript `m["url"]` raise, which the bare `except` turns into the
fallback with `m.get("url")` printing as `None`. -/
def mediaFragment (fetch : Json → FetchOutcome) (m : PyDict) : String :=
  if isImageType m then
    match dictGet m "url" with
    | none => "\nImage URL: None (failed to fetch image)"
    | some u =>
      match fetch u with
      | .exn => "\nImage URL: " ++ pyStr u ++ " (failed to fetch image)"
      | .response status content =>
        if status == 200 then
          "\nImage (" ++ detailField m ++ "): data:image/jpeg;base64," ++ b64encode content
        else
          "\nImage URL: " ++ pyStr u
  else
    "\nNon-image media: " ++ jsonDumps (Json.obj m)

/-- The whole media loop: `enhanced_media_text` accumulated by `+=` over
the media list. -/
def enhancedMediaText (fetch : Json → FetchOutcome) (ms : List PyDict) : String :=
  ms.foldl (fun acc m => acc ++ mediaFragment fetch m) ""

/-- The dict built by `process_post` and handed to `classify_post`:
`created_at`, `content` and the rebuilt `media` list. A `Json.null` field
value models a Python `None` value (as `post.get` also yields for an
absent key). -/
structure StructuredPost where
  created_at : Json
  content : Json
  media : List PyDict

/-- The `prompt_text` f-string of `classify_post` (src/main.py lines 56
to 72), with the media fragments already inlined. -/
def prompt_text (fetch : Json → FetchOutcome) (post : StructuredPost) : String :=
  "\nAnalyze the following post and provide a JSON object with the following keys:\n- \"tariffs_related\": true or false\n- \"affected_country\": string or null\n- \"affected_region\": string or null\n- \"products\": a list of strings (empty list if none)\n- \"published_time\": string (should match the post\x27s created_at)\n- \"tariff_rate\": string (e.g. \"50%\", or null if not mentioned)\n- \"classification\": string (\"threat\" or \"official\" or \"unknown\")\n- \"media_analysis\": string (a brief analysis of the media if present, or null)\n\nPost details:\nPublished time: "
  ++ pyStr post.created_at
  ++ "\nContent: " ++ pyStr post.content
  ++ "\nMedia URLs: " ++ jsonDumps (Json.arr (post.media.map Json.obj))
  ++ "\n" ++ enhancedMediaText fetch post.media
  ++ "\n"

/-- The external classification boundary of `classify_post`: `call n text`
is the outcome of the n-th `do_request` (that is, `client.responses.create`
with the fixed model, system instruction and response schema), yielding either a
raised error message or the response `output_text`; `parse` is
`json.loads` of an `output_text`, yielding either a raised error message
or the decoded JSON object (the strict response schema constrains a
successful response to a JSON object). -/
structure ClassifierEnv where
  call : Nat → String → Except String String
  parse : String → Except String PyDict

/-- The error marker dict `{"error": str(e)}`. -/
def errDict (e : String) : PyDict := [("error", Json.str e)]

/-- One attempt of `classify_post`: `do_request` followed by `json.loads`
of its `output_text`; any raise from either step surfaces as the same
exception value `e` of the surrounding `except`. -/
def attemptOutcome (env : ClassifierEnv) (n : Nat) (text : String) : Except String PyDict :=
  match env.call n text with
  | .error e => .error e
  | .ok t => env.parse t

/-- The try/except retry policy of `classify_post` (src/main.py lines 119
to 133): attempt 1 on the full prompt; on failure, when the message is
size-related, one retry on the 90 percent truncation; otherwise, and on a
second failure, the error dict. -/
def classifyResult (env : ClassifierEnv) (p : String) : PyDict :=
  match attemptOutcome env 1 p with
  | .ok c => c
  | .error e =>
    if sizeRelated e then
      match attemptOutcome env 2 (truncate90 p) with
      | .ok c => c
      | .error e2 => errDict e2
    else errDict e

/-- The sequence of external calls `classify_post` issues (attempt number
paired with the prompt text sent). -/
def classifyCalls (env : ClassifierEnv) (p : String) : List (Nat × String) :=
  match attemptOutcome env 1 p with
  | .ok _ => [(1, p)]
  | .error e =>
    if sizeRelated e then [(1, p), (2, truncate90 p)] else [(1, p)]

/-- `classify_post` in full: build the prompt from the post (media loop
included) and run the retry policy on it. -/
def classify_post (fetch : Json → FetchOutcome) (env : ClassifierEnv)
    (post : StructuredPost) : PyDict :=
  classifyResult env (prompt_text fetch post)

/-- A raw post as consumed from the post source: the fields `process_post`
reads. An absent key reads as `Json.null` through `post.get`. -/
structure RawPost where
  created_at : Json
  content : Json
  media_attachments : List PyDict

/-- A structured post together with its classification, as built by
`process_post`. -/
structure EnrichedPost where
  created_at : Json
  content : Json
  media : List PyDict
  classification : PyDict

/-- The media rebuild of `process_post`: each attachment is replaced by
`{"type": m.get("type"), "url": m.get("url")}`. -/
def rebuildMedia (ms : List PyDict) : List PyDict :=
  ms.map (fun m =>
    [("type", (dictGet m "type").getD Json.null),
     ("url", (dictGet m "url").getD Json.null)])

/-- `process_post` of `main` (src/main.py lines 167 to 175): rebuild the
structured dict, classify it, and attach the classification. The fixed
1-second `time.sleep(1)` is pure pacing and adds nothing to the value. -/
def process_post (fetch : Json → FetchOutcome) (env : ClassifierEnv)
    (raw : RawPost) : EnrichedPost :=
  let s : StructuredPost :=
    { created_at := raw.created_at, content := raw.content,
      media := rebuildMedia raw.media_attachments }
  { created_at := s.created_at, content := s.content, media := s.media,
    classification := classify_post fetch env s }

/-- The batch step of `main`: `executor.map(process_post, posts)` gathers
the per-post results back in input order, so its value is the list map. -/
def run_pipeline (fetch : Json → FetchOutcome) (env : ClassifierEnv)
    (posts : List RawPost) : List EnrichedPost :=
  posts.map (process_post fetch env)

/-- The tier-2 test of `main` (line 190): Python
`post.get("classification", {}).get("tariffs_related") is True`. -/
def isRelTrue (p : EnrichedPost) : Bool :=
  match dictGet p.classification "tariffs_related" with
  | some (Json.bool true) => true
  | _ => false

/-- Tier 2 of `main`: the tariff-related filter. -/
def tariff_posts (ps : List EnrichedPost) : List EnrichedPost :=
  ps.filter isRelTrue

/-- The tier-3 test of `main` (line 196): Python
`post.get("classification", {}).get("tariff_rate") not in [None, ""]`. -/
def rateOk (p : EnrichedPost) : Bool :=
  match dictGet p.classification "tariff_rate" with
  | none => false
  | some Json.null => false
  | some (Json.str s) => s != ""
  | some _ => true

/-- Tier 3 of `main`: the explicit-rate filter. -/
def official_tariff_posts (ps : List EnrichedPost) : List EnrichedPost :=
  ps.filter rateOk

/-- The fixed CSV field names of `write_csv`, in order. -/
def fieldnames : List String :=
  ["created_at", "content", "media",
   "tariffs_related", "affected_country", "affected_region",
   "products", "published_time", "tariff_rate", "classification", "media_analysis"]

/-- How the csv writer renders one cell value: `None` becomes the empty
field, anything else is `str()`. -/
def pyCell : Json → String
  | .null => ""
  | j => pyStr j

/-- A classification column of `write_csv`: `cls.get(key, "")` rendered by
the csv writer (an absent key and a `None` value both come out empty). -/
def clsCell (cls : PyDict) (key : String) : String :=
  match dictGet cls key with
  | none => ""
  | some j => pyCell j

/-- One element of a joined products value rendered as a string; Python
`str.join` requires each element to already be a string. -/
def strOf : Json → String
  | .str s => s
  | j => pyRepr j

/-- `", ".join(v)` over the products value: a list joins its elements, a
string joins its characters (Python iterates a string by character). -/
def joinComma : Json → String
  | .arr xs => String.intercalate ", " (xs.map strOf)
  | .str s => String.intercalate ", " (s.toList.map (fun c => String.mk [c]))
  | _ => ""

/-- The products column of `write_csv`:
`", ".join(cls.get("products", [])) if cls.get("products") else ""`. -/
def productsField (cls : PyDict) : String :=
  match dictGet cls "products" with
  | none => ""
  | some v => if truthy v then joinComma v else ""

/-- The row `write_csv` emits for one post (src/main.py lines 144 to 158),
in the fixed `fieldnames` order. -/
def csvRow (p : EnrichedPost) : List String :=
  [pyCell p.created_at,
   pyCell p.content,
   jsonDumps (Json.arr (p.media.map Json.obj)),
   clsCell p.classification "tariffs_related",
   clsCell p.classification "affected_country",
   clsCell p.classification "affected_region",
   productsField p.classification,
   clsCell p.classification "published_time",
   clsCell p.classification "tariff_rate",
   clsCell p.classification "classification",
   clsCell p.classification "media_analysis"]

/-- A classifier identical to `env` except that its first call on prompt
`p` raises `e` directly (used to state that a parse failure is treated
identically to a call failure). -/
def withCallFailure (env : ClassifierEnv) (e p : String) : ClassifierEnv :=
  { call := fun n s => if n == 1 && s == p then Except.error e else env.call n s,
    parse := env.parse }

/-! Concrete fixtures used by the witness theorems. -/

/-- A classifier whose first call raises an oversize error and whose second
call raises an unrelated error. -/
def envW1 : ClassifierEnv :=
  { call := fun n _ =>
      if n == 1 then Except.error "Error: the input is too long"
      else Except.error "server error",
    parse := fun _ => Except.error "unreached" }

/-- A classifier whose calls succeed but whose response texts fail JSON
decoding: the first with a size-related message, the second not. -/
def envW7 : ClassifierEnv :=
  { call := fun n _ => if n == 1 then Except.ok "A" else Except.ok "B",
    parse := fun t =>
      if t == "A" then Except.error "response too long to decode"
      else Except.error "bad json" }

/-- A classifier that always succeeds with a fixed parsed object. -/
def envOk : ClassifierEnv :=
  { call := fun _ _ => Except.ok "R",
    parse := fun _ => Except.ok [("tariffs_related", Json.bool true)] }

/-- A fetch that always returns status 404 with an empty body. -/
def fetch404 : Json → FetchOutcome := fun _ => FetchOutcome.response 404 []

/-- A fetch that always raises. -/
def fetchExn : Json → FetchOutcome := fun _ => FetchOutcome.exn

/-- A fetch that always returns status 200 with body bytes 1, 2, 3. -/
def fetch200 : Json → FetchOutcome := fun _ => FetchOutcome.response 200 [1, 2, 3]

/-- An image media dict with only `type` and `url`. -/
def mImgEx : PyDict := [("type", Json.str "image"), ("url", Json.str "http://img.example/a.jpg")]

/-- A raw image attachment carrying a `detail` hint and an extra field. -/
def mFullW : PyDict :=
  [("type", Json.str "image"), ("url", Json.str "http://img.example/a.jpg"),
   ("detail", Json.str "high"), ("id", Json.num 5)]

/-- A structured post carrying one image media dict. -/
def postW8 : StructuredPost :=
  { created_at := Json.str "2025-04-01", content := Json.str "tariffs now",
    media := [mImgEx] }

/-- An enriched post with a successful classification. -/
def postRelW : EnrichedPost :=
  { created_at := Json.str "2025-04-01", content := Json.str "tariffs now", media := [],
    classification :=
      [("tariffs_related", Json.bool true), ("tariff_rate", Json.str "50%"),
       ("products", Json.arr [Json.str "steel", Json.str "aluminum"])] }

/-- An enriched post carrying an error-result. -/
def postErrW : EnrichedPost :=
  { created_at := Json.str "2025-04-02", content := Json.str "weather", media := [],
    classification := errDict "boom" }

/-! Helper lemmas. -/

/-- Filtering twice with one predicate equals filtering once. -/
theorem filter_idem {α : Type} (f : α → Bool) (l : List α) :
    (l.filter f).filter f = l.filter f := by
  induction l with
  | nil => rfl
  | cons a l ih =>
    by_cases h : f a = true
    · simp [List.filter_cons, h, ih]
    · simp [List.filter_cons, h, ih]

/-- The tier-2 test holds exactly when `tariffs_related` is present with
value boolean true. -/
theorem isRelTrue_iff (p : EnrichedPost) :
    isRelTrue p = true ↔
      dictGet p.classification "tariffs_related" = some (Json.bool true) := by
  unfold isRelTrue
  split <;> simp_all

/-- The tier-3 test holds exactly when `tariff_rate` is present and is
neither null nor the empty string. -/
theorem rateOk_iff (p : EnrichedPost) :
    rateOk p = true ↔
      dictGet p.classification "tariff_rate" ≠ none ∧
      dictGet p.classification "tariff_rate" ≠ some Json.null ∧
      dictGet p.classification "tariff_rate" ≠ some (Json.str "") := by
  unfold rateOk
  rcases h : dictGet p.classification "tariff_rate" with _ | j
  · simp
  · cases j <;> simp [bne_iff_ne]

/-- The error dict has no key besides `"error"`. -/
theorem dictGet_errDict (e k : String) (h : ("error" == k) = false) :
    dictGet (errDict e) k = none := by
  simp [errDict, dictGet, h]

/-- `classifyResult` is always either the error dict on some message, or a
dict that `json.loads` produced from some response text. -/
theorem classifyResult_shape (env : ClassifierEnv) (p : String) :
    (∃ e, classifyResult env p = errDict e) ∨
    (∃ t, env.parse t = Except.ok (classifyResult env p)) := by
  unfold classifyResult
  cases h1 : attemptOutcome env 1 p with
  | ok c =>
    right
    unfold attemptOutcome at h1
    cases hc : env.call 1 p with
    | error e3 => rw [hc] at h1; cases h1
    | ok t => rw [hc] at h1; exact ⟨t, h1⟩
  | error e =>
    by_cases hs : sizeRelated e = true
    · simp only [hs, if_true]
      cases h2 : attemptOutcome env 2 (truncate90 p) with
      | error e2 => left; exact ⟨e2, rfl⟩
      | ok c =>
        right
        unfold attemptOutcome at h2
        cases hc : env.call 2 (truncate90 p) with
        | error e3 => rw [hc] at h2; cases h2
        | ok t => rw [hc] at h2; exact ⟨t, h2⟩
    · simp only [hs, if_false]
      left; exact ⟨e, rfl⟩

/-! Claim theorems. -/

/-- C1: `classify_post` makes at most two external calls; on a first
failure whose message is size-related it retries exactly once on the
prompt truncated to 90 percent of its character length, and a second
failure yields the error dict with the second message; a first failure
that is not size-related yields the error dict with the first message and
no second call. -/
theorem classify_retry_policy (env : ClassifierEnv) (p : String) :
    (classifyCalls env p).length ≤ 2 ∧
    (∀ e, attemptOutcome env 1 p = Except.error e →
      (sizeRelated e = true →
        classifyCalls env p = [(1, p), (2, truncate90 p)] ∧
        truncate90 p = p.take (9 * p.length / 10) ∧
        ∀ e2, attemptOutcome env 2 (truncate90 p) = Except.error e2 →
          classifyResult env p = errDict e2) ∧
      (sizeRelated e = false →
        classifyResult env p = errDict e ∧ classifyCalls env p = [(1, p)])) := by
  constructor
  · unfold classifyCalls
    cases attemptOutcome env 1 p with
    | ok c => simp
    | error e => by_cases h : sizeRelated e = true <;> simp [h]
  · intro e he
    constructor
    · intro hs
      refine ⟨?_, rfl, ?_⟩
      · unfold classifyCalls
        rw [he]
        simp [hs]
      · intro e2 he2
        unfold classifyResult
        rw [he]
        simp [hs, he2]
    · intro hs
      unfold classifyResult classifyCalls
      rw [he]
      simp [hs]

/-- C1 witness: on a ten-character prompt against `envW1` the two calls
are the full prompt then its 90 percent truncation, and the result is the
error dict of the second failure. -/
theorem classify_retry_policy_witness :
    classifyCalls envW1 "0123456789" = [(1, "0123456789"), (2, truncate90 "0123456789")] ∧
    classifyResult envW1 "0123456789" = errDict "server error" := by
  obtain ⟨-, h⟩ := classify_retry_policy envW1 "0123456789"
  obtain ⟨hsz, -⟩ := h "Error: the input is too long" rfl
  obtain ⟨hc, -, hr⟩ := hsz (by decide)
  exact ⟨hc, hr "server error" rfl⟩

/-- C2: the enriched output has the same length as the raw input, and the
i-th enriched post is the per-post enrichment of the i-th raw post — no
post dropped, reordered or duplicated. -/
theorem pipeline_preserves_posts (fetch : Json → FetchOutcome) (env : ClassifierEnv)
    (posts : List RawPost) :
    (run_pipeline fetch env posts).length = posts.length ∧
    ∀ i : Nat, (run_pipeline fetch env posts)[i]?
      = posts[i]?.map (process_post fetch env) :=
  ⟨List.length_map posts (process_post fetch env),
   fun i => List.getElem?_map (process_post fetch env) posts i⟩

/-- C3: tier Relevant holds exactly the posts whose `tariffs_related`
classification value is the boolean true (error-results are excluded
since their dict has no such key), tier RatePresent exactly the posts
whose `tariff_rate` value is present and neither null nor the empty
string, and both filters preserve the original order. -/
theorem tier_membership (ps : List EnrichedPost) :
    (∀ p, p ∈ tariff_posts ps ↔
      p ∈ ps ∧ dictGet p.classification "tariffs_related" = some (Json.bool true)) ∧
    (∀ p, p ∈ official_tariff_posts ps ↔
      p ∈ ps ∧ dictGet p.classification "tariff_rate" ≠ none ∧
        dictGet p.classification "tariff_rate" ≠ some Json.null ∧
        dictGet p.classification "tariff_rate" ≠ some (Json.str "")) ∧
    (∀ p e, p.classification = errDict e → p ∉ tariff_posts ps) ∧
    (tariff_posts ps).Sublist ps ∧
    (official_tariff_posts ps).Sublist ps := by
  refine ⟨fun p => ?_, fun p => ?_, fun p e hp hc => ?_,
    List.filter_sublist ps, List.filter_sublist ps⟩
  · rw [tariff_posts, List.mem_filter, isRelTrue_iff]
  · rw [official_tariff_posts, List.mem_filter, rateOk_iff]
  · have h := (List.mem_filter.1 hc).2
    rw [isRelTrue_iff, hp, dictGet_errDict e _ (by decide)] at h
    exact Option.noConfusion h

/-- C3 witness: in a two-post list holding an error-result post and a
relevant rated post, the relevant one is in both tiers and the
error-result one is excluded from tier Relevant. -/
theorem tier_membership_witness :
    postRelW ∈ tariff_posts [postErrW, postRelW] ∧
    postErrW ∉ tariff_posts [postErrW, postRelW] ∧
    postRelW ∈ official_tariff_posts [postErrW, postRelW] := by
  obtain ⟨h1, h2, h3, -, -⟩ := tier_membership [postErrW, postRelW]
  refine ⟨?_, h3 postErrW "boom" rfl, ?_⟩
  · exact (h1 postRelW).2 ⟨List.mem_cons_of_mem _ (List.mem_cons_self _ _), rfl⟩
  · refine (h2 postRelW).2 ⟨List.mem_cons_of_mem _ (List.mem_cons_self _ _), ?_, ?_, ?_⟩ <;>
      rw [show dictGet postRelW.classification "tariff_rate" = some (Json.str "50%") from rfl] <;>
      simp

/-- C4: tier Relevant and tier RatePresent are subsequences of tier All,
and each predicate filter is idempotent: re-applying it to the filtered
tier reproduces that tier exactly. -/
theorem tier_filters_idempotent (ps : List EnrichedPost) :
    (tariff_posts ps).Sublist ps ∧
    (official_tariff_posts ps).Sublist ps ∧
    tariff_posts (tariff_posts ps) = tariff_posts ps ∧
    official_tariff_posts (official_tariff_posts ps) = official_tariff_posts ps :=
  ⟨List.filter_sublist ps, List.filter_sublist ps,
   filter_idem isRelTrue ps, filter_idem rateOk ps⟩

/-- C5: the CSV row has the fixed eleven-column order; a post with an
error-result renders every classification column as the empty string; a
products list of strings is joined into one comma-delimited field. -/
theorem csv_row_rendering :
    fieldnames = ["created_at", "content", "media", "tariffs_related", "affected_country",
      "affected_region", "products", "published_time", "tariff_rate", "classification",
      "media_analysis"] ∧
    (∀ p : EnrichedPost, (csvRow p).length = fieldnames.length) ∧
    (∀ ca co me e, csvRow ⟨ca, co, me, errDict e⟩
      = [pyCell ca, pyCell co, jsonDumps (Json.arr (me.map Json.obj)),
         "", "", "", "", "", "", "", ""]) ∧
    (∀ p : EnrichedPost, ∀ xs : List String, xs ≠ [] →
      dictGet p.classification "products" = some (Json.arr (xs.map Json.str)) →
      (csvRow p).getD 6 "" = String.intercalate ", " xs) := by
  refine ⟨rfl, fun p => rfl, fun ca co me e => rfl, fun p xs hne hp => ?_⟩
  have h0 : (csvRow p).getD 6 "" = productsField p.classification := rfl
  rw [h0]
  unfold productsField
  rw [hp]
  simp [truthy, joinComma, hne, List.map_map, Function.comp_def, strOf]

/-- C5 witness: the relevant rated post with products steel and aluminum
renders its products column as the single field "steel, aluminum". -/
theorem csv_row_rendering_witness :
    (csvRow postRelW).getD 6 "" = "steel, aluminum" := by
  have h := csv_row_rendering.2.2.2 postRelW ["steel", "aluminum"] (by decide) rfl
  exact h.trans (by decide)

/-- C6 counterexample: an image whose fetch returns status 404 yields the
bare fragment without the "(failed to fetch image)" suffix, refuting the
claim that a non-200 status yields that literal fallback text. -/
theorem media_non200_counterexample :
    mediaFragment fetch404 mImgEx = "\nImage URL: http://img.example/a.jpg" ∧
    mediaFragment fetch404 mImgEx
      ≠ "\nImage URL: http://img.example/a.jpg (failed to fetch image)" :=
  ⟨rfl, by decide⟩

/-- C6 (amended): an image fetch returning a non-200 status yields the
bare fragment "Image URL: <url>" with no inlined payload; the
"(failed to fetch image)" suffix appears when the fetch raises. -/
theorem media_non200_amended (fetch : Json → FetchOutcome) (m : PyDict) (u : Json)
    (status : Nat) (content : List Nat)
    (ht : dictGet m "type" = some (Json.str "image"))
    (hu : dictGet m "url" = some u) :
    (fetch u = FetchOutcome.response status content → status ≠ 200 →
      mediaFragment fetch m = "\nImage URL: " ++ pyStr u) ∧
    (fetch u = FetchOutcome.exn →
      mediaFragment fetch m = "\nImage URL: " ++ pyStr u ++ " (failed to fetch image)") := by
  constructor
  · intro hf hs
    simp [mediaFragment, isImageType, ht, hu, hf, hs]
  · intro hf
    simp [mediaFragment, isImageType, ht, hu, hf]

/-- C6 witness: a 404 fetch yields the bare URL fragment and a raising
fetch yields the suffixed fallback, on a concrete image dict. -/
theorem media_non200_amended_witness :
    mediaFragment fetch404 mImgEx = "\nImage URL: http://img.example/a.jpg" ∧
    mediaFragment fetchExn mImgEx
      = "\nImage URL: http://img.example/a.jpg (failed to fetch image)" := by
  have h1 := media_non200_amended fetch404 mImgEx (Json.str "http://img.example/a.jpg")
    404 [] rfl rfl
  have h2 := media_non200_amended fetchExn mImgEx (Json.str "http://img.example/a.jpg")
    0 [] rfl rfl
  exact ⟨(h1.1 rfl (by decide)).trans (by decide), (h2.2 rfl).trans (by decide)⟩

/-- C7: a successful call whose response fails JSON parsing is treated
exactly as a call failing with the parse message at that attempt: result
and issued calls coincide with those under a first-call failure carrying
the parse message (so the size test applies to it), and a parse failure
at attempt 2 yields the error dict with its message. -/
theorem parse_failure_as_call_failure (env : ClassifierEnv) (p t e : String)
    (h1 : env.call 1 p = Except.ok t) (h2 : env.parse t = Except.error e) :
    classifyResult env p = classifyResult (withCallFailure env e p) p ∧
    classifyCalls env p = classifyCalls (withCallFailure env e p) p ∧
    (sizeRelated e = false →
      classifyResult env p = errDict e ∧ classifyCalls env p = [(1, p)]) ∧
    (∀ t2 e2, sizeRelated e = true → env.call 2 (truncate90 p) = Except.ok t2 →
      env.parse t2 = Except.error e2 → classifyResult env p = errDict e2) := by
  have ha : attemptOutcome env 1 p = Except.error e := by
    unfold attemptOutcome
    rw [h1]
    exact h2
  have ha' : attemptOutcome (withCallFailure env e p) 1 p = Except.error e := by
    unfold attemptOutcome withCallFailure
    simp
  have ha2 : ∀ s, attemptOutcome (withCallFailure env e p) 2 s = attemptOutcome env 2 s := by
    intro s
    unfold attemptOutcome withCallFailure
    simp
  refine ⟨?_, ?_, ?_, ?_⟩
  · unfold classifyResult
    rw [ha, ha', ha2]
  · unfold classifyCalls
    rw [ha, ha']
  · intro hs
    unfold classifyResult classifyCalls
    rw [ha]
    simp [hs]
  · intro t2 e2 hs hc2 hp2
    have hb : attemptOutcome env 2 (truncate90 p) = Except.error e2 := by
      unfold attemptOutcome
      rw [hc2]
      exact hp2
    unfold classifyResult
    rw [ha]
    simp [hs, hb]

/-- C7 witness: against `envW7`, whose two calls succeed with texts that
fail JSON parsing (the first with a size-related message), the result is
the error dict of the second parse failure and coincides with the result
under a direct first-call failure. -/
theorem parse_failure_as_call_failure_witness :
    classifyResult envW7 "prompt" = errDict "bad json" ∧
    classifyResult envW7 "prompt"
      = classifyResult (withCallFailure envW7 "response too long to decode" "prompt") "prompt" := by
  have h := parse_failure_as_call_failure envW7 "prompt" "A" "response too long to decode" rfl rfl
  exact ⟨h.2.2.2 "B" "bad json" (by decide) rfl rfl, h.1⟩

/-- C8: for every fetch behaviour, classifier behaviour and post, the
value of `classify_post` is either the error dict on some message or a
dict parsed from some response text — failures are data confined to the
result, and a raising media fetch degrades to the textual fallback that
the prompt embeds. -/
theorem classify_post_total (fetch : Json → FetchOutcome) (env : ClassifierEnv)
    (post : StructuredPost) :
    ((∃ e, classify_post fetch env post = errDict e) ∨
      (∃ t, env.parse t = Except.ok (classify_post fetch env post))) ∧
    (∀ m u, dictGet m "type" = some (Json.str "image") → dictGet m "url" = some u →
      fetch u = FetchOutcome.exn →
      mediaFragment fetch m = "\nImage URL: " ++ pyStr u ++ " (failed to fetch image)") := by
  refine ⟨classifyResult_shape env (prompt_text fetch post), ?_⟩
  intro m u ht hu hf
  simp [mediaFragment, isImageType, ht, hu, hf]

/-- C8 witness: with a raising fetch and an always-succeeding classifier,
the concrete post yields a classification of one of the two shapes and
its image fragment is the textual fallback. -/
theorem classify_post_total_witness :
    ((∃ e, classify_post fetchExn envOk postW8 = errDict e) ∨
      (∃ t, envOk.parse t = Except.ok (classify_post fetchExn envOk postW8))) ∧
    mediaFragment fetchExn mImgEx
      = "\nImage URL: http://img.example/a.jpg (failed to fetch image)" := by
  have h := classify_post_total fetchExn envOk postW8
  exact ⟨h.1, (h.2 mImgEx (Json.str "http://img.example/a.jpg") rfl rfl rfl).trans (by decide)⟩

/-- C10: the per-post preprocessing rebuilds each media attachment with
exactly the keys type and url — every other field, detail included, is
discarded — so a successfully inlined image is tagged with the default
detail low and no rebuilt media dict serialized into the prompt carries a
detail field. -/
theorem rebuild_media_strips_detail (ms : List PyDict) :
    (∀ m, m ∈ rebuildMedia ms → m.map Prod.fst = ["type", "url"]) ∧
    (∀ m, m ∈ rebuildMedia ms → dictGet m "detail" = none) ∧
    (∀ m, m ∈ rebuildMedia ms → ∀ fetch u content,
      dictGet m "type" = some (Json.str "image") → dictGet m "url" = some u →
      fetch u = FetchOutcome.response 200 content →
      mediaFragment fetch m
        = "\nImage (low): data:image/jpeg;base64," ++ b64encode content) := by
  have hkeys : ∀ m, m ∈ rebuildMedia ms → ∃ v1 v2, m = [("type", v1), ("url", v2)] := by
    intro m hm
    obtain ⟨m0, -, rfl⟩ := List.mem_map.1 hm
    exact ⟨_, _, rfl⟩
  have hdetail : ∀ m, m ∈ rebuildMedia ms → dictGet m "detail" = none := by
    intro m hm
    obtain ⟨v1, v2, rfl⟩ := hkeys m hm
    rfl
  refine ⟨?_, hdetail, ?_⟩
  · intro m hm
    obtain ⟨v1, v2, rfl⟩ := hkeys m hm
    rfl
  · intro m hm fetch u content ht hu hf
    simp [mediaFragment, isImageType, ht, hu, hf, detailField, hdetail m hm]

/-- C10 witness: rebuilding an attachment that carries detail high keeps
only type and url, and its successful inline is tagged low. -/
theorem rebuild_media_strips_detail_witness :
    mImgEx ∈ rebuildMedia [mFullW] ∧
    dictGet mImgEx "detail" = none ∧
    mediaFragment fetch200 mImgEx = "\nImage (low): data:image/jpeg;base64,AQID" := by
  have hm : mImgEx ∈ rebuildMedia [mFullW] := by
    rw [show rebuildMedia [mFullW] = [mImgEx] from rfl]
    exact List.mem_cons_self _ _
  have h := rebuild_media_strips_detail [mFullW]
  refine ⟨hm, h.2.1 mImgEx hm, ?_⟩
  have h3 := h.2.2 mImgEx hm fetch200 (Json.str "http://img.example/a.jpg") [1, 2, 3]
    rfl rfl rfl
  exact h3.trans (by decide)

end TruthScraper
